import Mathlib

/-!
Shallow embedding of the recipe-suggester backend (`src/main.py`) and of the
spec-described Flow B normalizer, together with theorems settling the frozen
claims about the recipe-normalization and response-assembly pipeline.

Python string primitives (`str.strip`, `str.split`, `str.title`,
`urllib.parse.quote`, `int(...)`) are modelled by structurally recursive
functions over character lists so every definition evaluates inside the kernel.
-/

/-- Python `str.strip()`: drop leading and trailing whitespace. -/
def pyStrip (s : String) : String :=
  String.mk (((s.data.dropWhile Char.isWhitespace).reverse.dropWhile Char.isWhitespace).reverse)

/-- Python `str.split(sep)` for a one-character separator: split at every
occurrence, keeping empty segments. -/
def pySplitChar (sep : Char) : List Char → List (List Char)
  | [] => [[]]
  | c :: cs =>
    if c = sep then [] :: pySplitChar sep cs
    else
      match pySplitChar sep cs with
      | r :: rs => (c :: r) :: rs
      | [] => [[c]]

/-- Python `str.title()`: uppercase each letter that starts a run of letters,
lowercase the other letters, leave the rest unchanged. -/
def pyTitleAux : Bool → List Char → List Char
  | _, [] => []
  | prevAlpha, c :: cs =>
    if c.isAlpha then
      (if prevAlpha then c.toLower else c.toUpper) :: pyTitleAux true cs
    else
      c :: pyTitleAux false cs

/-- Python `str.title()` on a string. -/
def pyTitle (s : String) : String :=
  String.mk (pyTitleAux false s.data)

/-- UTF-8 encoding of one character, as byte values. -/
def utf8Bytes (c : Char) : List Nat :=
  if c.toNat < 0x80 then [c.toNat]
  else if c.toNat < 0x800 then
    [0xC0 + c.toNat / 0x40, 0x80 + c.toNat % 0x40]
  else if c.toNat < 0x10000 then
    [0xE0 + c.toNat / 0x1000, 0x80 + (c.toNat / 0x40) % 0x40, 0x80 + c.toNat % 0x40]
  else
    [0xF0 + c.toNat / 0x40000, 0x80 + (c.toNat / 0x1000) % 0x40,
     0x80 + (c.toNat / 0x40) % 0x40, 0x80 + c.toNat % 0x40]

/-- Uppercase hexadecimal digit for a value below 16. -/
def hexDigitChar : Nat → Char
  | 0 => '0' | 1 => '1' | 2 => '2' | 3 => '3' | 4 => '4' | 5 => '5' | 6 => '6' | 7 => '7'
  | 8 => '8' | 9 => '9' | 10 => 'A' | 11 => 'B' | 12 => 'C' | 13 => 'D' | 14 => 'E' | _ => 'F'

/-- Characters `urllib.parse.quote` leaves unescaped with its default
`safe='/'`: ASCII letters, digits, `_`, `.`, `-`, `~` and `/`. -/
def isSafeChar (c : Char) : Bool :=
  decide ((65 ≤ c.toNat ∧ c.toNat ≤ 90) ∨ (97 ≤ c.toNat ∧ c.toNat ≤ 122) ∨
    (48 ≤ c.toNat ∧ c.toNat ≤ 57) ∨ c.toNat = 95 ∨ c.toNat = 46 ∨ c.toNat = 45 ∨
    c.toNat = 126 ∨ c.toNat = 47)

/-- Percent-encoding of one character: kept verbatim when safe, otherwise each
UTF-8 byte becomes `%XX` with uppercase hex. -/
def quoteChar (c : Char) : String :=
  if isSafeChar c then String.singleton c
  else String.mk ((utf8Bytes c).flatMap (fun b => ['%', hexDigitChar (b / 16), hexDigitChar (b % 16)]))

/-- Python `urllib.parse.quote(s)` with the default `safe='/'`. -/
def pyQuote (s : String) : String :=
  String.join (s.data.map quoteChar)

/-- Decimal digit value of a character, if it is one. -/
def decDigit (c : Char) : Option Nat :=
  if 48 ≤ c.toNat ∧ c.toNat ≤ 57 then some (c.toNat - 48) else none

/-- Accumulate a decimal number from characters; `none` on any non-digit. -/
def decNatAux : List Char → Nat → Option Nat
  | [], acc => some acc
  | c :: cs, acc =>
    match decDigit c with
    | some d => decNatAux cs (10 * acc + d)
    | none => none

/-- Python `int(s)` on a decimal string (surrounding whitespace ignored,
optional sign), `none` where Python raises `ValueError`. -/
def pyIntOfString (s : String) : Option Int :=
  match (pyStrip s).data with
  | '-' :: c :: cs => (decNatAux (c :: cs) 0).map (fun n => -(n : Int))
  | '+' :: c :: cs => (decNatAux (c :: cs) 0).map (fun n => (n : Int))
  | c :: cs => (decNatAux (c :: cs) 0).map (fun n => (n : Int))
  | [] => none

example : pyStrip "  Boil water.  " = "Boil water." := by decide
example : pyTitle "garlic pasta" = "Garlic Pasta" := by decide
example : pyQuote "a b,/c" = "a%20b%2C/c" := by decide
example : (pySplitChar '.' "a. b.".data).map String.mk = ["a", " b", ""] := by decide
example : pyIntOfString " 25 " = some 25 := by decide

/-! ## Data model (`src/main.py`, pydantic models and raw upstream payloads) -/

/-- `RecipeRequest` (main.py line 58): the validated user input. -/
structure RecipeRequest where
  description : String
  max_time : Int
deriving DecidableEq

/-- `Ingredient` (main.py line 63). -/
structure Ingredient where
  name : String
  amount : String
deriving DecidableEq

/-- `RecipeResponse` (main.py line 68). -/
structure RecipeResponse where
  title : String
  image_url : String
  total_time_minutes : Int
  source_url : Option String
  ingredients : List Ingredient
  instructions : List String
  ai_blurb : String
  api_used : String
deriving DecidableEq

/-- One step object inside an analyzed-instructions group: `s.get("step")`,
`none` when the key is absent or null. -/
structure Step where
  step : Option String
deriving DecidableEq

/-- One group of `analyzedInstructions`: `g.get("steps")`, `none` when absent
or null. -/
structure StepGroup where
  steps : Option (List Step)
deriving DecidableEq

/-- One entry of `extendedIngredients`: `name` is `none` exactly when the key
is absent (the source uses `item.get("name", "ingredient")`), `original` is
`none` when absent or null. -/
structure RawIngredient where
  name : Option String
  original : Option String
deriving DecidableEq

/-- JSON value found under `readyInMinutes`: absent and `null` are both
`null`; numbers and strings are kept so Python truthiness is faithful. -/
inductive TimeVal where
  | null : TimeVal
  | num : Int → TimeVal
  | str : String → TimeVal
deriving DecidableEq

/-- Python truthiness of a `readyInMinutes` value. -/
def TimeVal.truthy : TimeVal → Bool
  | .null => false
  | .num n => decide (n ≠ 0)
  | .str s => decide (s ≠ "")

/-- Python `int(...)` applied to a `readyInMinutes` value (only ever reached
on truthy values in the pipeline). -/
def TimeVal.toIntVal : TimeVal → Int
  | .null => 0
  | .num n => n
  | .str s => (pyIntOfString s).getD 0

/-- The fields of the Spoonacular detail payload that `src/main.py` reads.
`Option` is `none` where `dict.get` would yield `None`. -/
structure RawInfo where
  title : Option String
  readyInMinutes : TimeVal
  sourceUrl : Option String
  analyzedInstructions : Option (List StepGroup)
  instructions : Option String
  extendedIngredients : Option (List RawIngredient)
deriving DecidableEq

/-- Outcome of the Spoonacular complexSearch HTTP exchange: the response
status code and the list of result ids in the JSON body. -/
structure SearchHttp where
  status : Nat
  results : List Int
deriving DecidableEq

/-- Outcome of the Gemini call inside `gemini_blurb_sync`'s `try` block:
either the response object's `text` attribute (absent/None as `none`), or a
raised exception with its message. -/
inductive GeminiOutcome where
  | success : Option String → GeminiOutcome
  | failure : String → GeminiOutcome
deriving DecidableEq

/-- How a request fails: a raised `HTTPException(status_code, detail)`, or any
other uncaught exception propagating to the framework. -/
inductive PipelineError where
  | httpException : Nat → String → PipelineError
  | unhandled : String → PipelineError
deriving DecidableEq

/-! ## Source functions (`src/main.py`) -/

/-- `POLLINATIONS_BASE` (main.py line 30). -/
def POLLINATIONS_BASE : String := "https://image.pollinations.ai/prompt/"

/-- `pollinations_image_url` (main.py lines 108-111). -/
def pollinations_image_url (title : String) : String :=
  POLLINATIONS_BASE ++ pyQuote ("high quality food photography of " ++ title ++ ", plated, natural lighting")

/-- The step list the structured branch of `extract_instructions` examines:
`(info.get("analyzedInstructions") or [])[0].get("steps")` with all falsy
values flattened to `[]`. The source's branch guard
`analyzed and analyzed[0].get("steps")` holds exactly when this is non-empty. -/
def structured_steps (info : RawInfo) : List Step :=
  match info.analyzedInstructions.getD [] with
  | g :: _ => g.steps.getD []
  | [] => []

/-- The list comprehension of main.py line 125:
`[x.strip() for x in raw.split(".") if x.strip()]`. -/
def split_instruction_text (raw : String) : List String :=
  (((pySplitChar '.' raw.data).map (fun l => pyStrip (String.mk l))).filter (fun t => t != ""))

/-- The `else` branch of `extract_instructions` (main.py lines 122-125). -/
def free_text_branch (info : RawInfo) : List String :=
  match pyStrip (info.instructions.getD "") with
  | raw => if raw = "" then [] else split_instruction_text raw

/-- The `steps` value of `extract_instructions` before the final fallback
(main.py lines 115-125). -/
def chosen_steps (info : RawInfo) : List String :=
  if (structured_steps info).isEmpty then free_text_branch info
  else ((structured_steps info).map (fun s => pyStrip (s.step.getD ""))).filter (fun t => t != "")

/-- The fixed placeholder of main.py line 128. -/
def noStepsMsg : String := "No step-by-step instructions were returned by the API for this recipe."

/-- `extract_instructions` (main.py lines 114-129). -/
def extract_instructions (info : RawInfo) : List String :=
  if (chosen_steps info).isEmpty then [noStepsMsg] else chosen_steps info

/-- The loop body of `extract_ingredients` (main.py lines 135-137). -/
def ingredientOf (item : RawIngredient) : Ingredient :=
  match item.name.getD "ingredient" with
  | name =>
    match pyStrip (item.original.getD "") with
    | amt => ⟨name, if amt = "" then name else amt⟩

/-- `extract_ingredients` (main.py lines 132-140). -/
def extract_ingredients (info : RawInfo) : List Ingredient :=
  match (info.extendedIngredients.getD []).map ingredientOf with
  | [] => [⟨"N/A", "No ingredients returned by the API."⟩]
  | out => out

/-- `gemini_blurb_sync` (main.py lines 143-161), with the external Gemini call
abstracted into a `GeminiOutcome`. -/
def gemini_blurb_sync (key : String) (outcome : GeminiOutcome) : String :=
  if key = "" then
    "AI Studio key not set. (Set GOOGLE_AI_STUDIO_API_KEY to enable Gemini blurb.)"
  else
    match outcome with
    | .failure e => "Gemini error: " ++ e
    | .success t =>
      match pyStrip (t.getD "") with
      | text => if text = "" then "Gemini returned an empty response." else text

/-- `spoonacular_search` (main.py lines 79-96), with the HTTP exchange
abstracted into a `SearchHttp`: a 401 raises `HTTPException(500, ...)`,
`raise_for_status()` turns any other 4xx/5xx into an uncaught
`httpx.HTTPStatusError`, an empty result list raises `HTTPException(404, ...)`,
and otherwise the first result id is returned. -/
def spoonacular_search (h : SearchHttp) : Except PipelineError Int :=
  if h.status = 401 then
    .error (.httpException 500 "Invalid SPOONACULAR_API_KEY (401).")
  else if 400 ≤ h.status then
    .error (.unhandled "httpx.HTTPStatusError")
  else
    match h.results with
    | [] => .error (.httpException 404 "No recipes found for that query/time.")
    | i :: _ => .ok i

/-- Title resolution of main.py line 187:
`(info.get("title") or query.title()).strip()`. -/
def resolve_title (t : Option String) (query : String) : String :=
  pyStrip (if t.getD "" = "" then pyTitle query else t.getD "")

/-- Total-time resolution of main.py line 188:
`int(info.get("readyInMinutes") or max_time)`. -/
def resolve_total_time (v : TimeVal) (max_time : Int) : Int :=
  if v.truthy then v.toIntVal else max_time

/-- The `/recipe` handler `recipe` (main.py lines 164-208), with the three
external effects abstracted into inputs: the search HTTP exchange, the detail
fetch (`.error` when `spoonacular_info` raises), and the Gemini call outcome. -/
def recipe (spoonacularKey googleKey : String) (req : RecipeRequest)
    (search : SearchHttp) (infoResult : Except String RawInfo)
    (gemini : GeminiOutcome) : Except PipelineError RecipeResponse :=
  if spoonacularKey = "" then
    .error (.httpException 500 "Server missing SPOONACULAR_API_KEY.")
  else
    match spoonacular_search search with
    | .error e => .error e
    | .ok _recipeId =>
      match infoResult with
      | .error m => .error (.unhandled m)
      | .ok info =>
        match pyStrip req.description with
        | query =>
          match pollinations_image_url query with
          | _provisional_image_url =>
            match resolve_title info.title query with
            | title =>
              .ok {
                title := title
                image_url := pollinations_image_url title
                total_time_minutes := resolve_total_time info.readyInMinutes req.max_time
                source_url := info.sourceUrl
                ingredients := extract_ingredients info
                instructions := extract_instructions info
                ai_blurb := gemini_blurb_sync googleKey gemini
                api_used := "Spoonacular (recipes) + Pollinations (image) + Google AI Studio Gemini (blurb)" }

/-! ## Flow B normalizer (spec §4.1), modelled from the spec -/

/-- One ingredient of the generated-recipe JSON schema (spec §4.1). -/
structure GenIngredient where
  name : Option String
  amount : Option String
deriving DecidableEq

/-- The generated-recipe JSON schema of spec §4.1: title, total_time_minutes,
ingredients, instructions, blurb, each possibly absent. -/
structure GenRecipe where
  title : Option String
  total_time_minutes : Option Int
  ingredients : Option (List GenIngredient)
  instructions : Option (List String)
  blurb : Option String
deriving DecidableEq

/-- First occurrence of `sep` in a character list: the part before it and the
part after it, or `none` when `sep` does not occur. -/
def splitFirst (sep : List Char) : List Char → Option (List Char × List Char)
  | [] => none
  | c :: cs =>
    if sep.isPrefixOf (c :: cs) then some ([], (c :: cs).drop sep.length)
    else
      match splitFirst sep cs with
      | some (pre, post) => some (c :: pre, post)
      | none => none

/-- Inner text of a fence opened by `marker`: the text after the first
`marker` up to the next closing triple backtick (or the end), trimmed. -/
def fenceInner (marker : List Char) (t : String) : Option String :=
  match splitFirst marker t.data with
  | some (_, rest) =>
    match splitFirst "```".data rest with
    | some (inner, _) => some (pyStrip (String.mk inner))
    | none => some (pyStrip (String.mk rest))
  | none => none

/-- Modelled from the spec: the repository's Flow B (full generation) variant,
which contains the fence-stripping normalizer, is not among the files under
`src/`. Spec §4.1: the generated text may be wrapped in a fenced code block
labeled `json` or an unlabeled fenced block; strip exactly one such wrapper,
preferring the `json`-labeled fence when both patterns could match, and leave
unfenced text unchanged. -/
def strip_code_fence (text : String) : String :=
  match pyStrip text with
  | t =>
    match fenceInner "```json".data t with
    | some inner => inner
    | none =>
      match fenceInner "```".data t with
      | some inner => inner
      | none => t

/-- Modelled from the spec: `parse_generated_recipe` of the Flow B variant is
not among the files under `src/`. Spec §4.1: strip one fence wrapper, then
parse JSON against the fixed schema; malformed JSON surfaces as a
distinguishable ParseError (a server-side failure carrying a diagnostic),
never as a silent empty recipe. JSON decoding itself is abstracted as the
`jsonDecode` argument, `none` meaning the text is not valid JSON for the
schema. -/
def parse_generated_recipe (jsonDecode : String → Option GenRecipe) (text : String) :
    Except PipelineError GenRecipe :=
  match jsonDecode (strip_code_fence text) with
  | some r => .ok r
  | none => .error (.httpException 500 "Gemini did not return valid recipe JSON.")

deriving instance DecidableEq for Except

/-! ## Sample fixtures shared by witnesses and counterexamples -/

/-- A representative Spoonacular detail payload. -/
def sampleInfo : RawInfo :=
  { title := some "Garlic Pasta"
    readyInMinutes := .num 25
    sourceUrl := some "https://example.com/pasta"
    analyzedInstructions := some [⟨some [⟨some "Boil water"⟩, ⟨some " "⟩, ⟨some "Add pasta"⟩]⟩]
    instructions := some "ignored free text."
    extendedIngredients := some [⟨some "pasta", some " 200 g pasta "⟩, ⟨none, none⟩] }

/-- A representative validated request. -/
def sampleReq : RecipeRequest := ⟨"garlic pasta", 60⟩

/-- A successful search exchange returning one result id. -/
def sampleSearch : SearchHttp := ⟨200, [7]⟩

/-- The response the pipeline assembles from the sample fixtures. -/
def sampleResponse : RecipeResponse :=
  { title := "Garlic Pasta"
    image_url := "https://image.pollinations.ai/prompt/high%20quality%20food%20photography%20of%20Garlic%20Pasta%2C%20plated%2C%20natural%20lighting"
    total_time_minutes := 25
    source_url := some "https://example.com/pasta"
    ingredients := [⟨"pasta", "200 g pasta"⟩, ⟨"ingredient", "ingredient"⟩]
    instructions := ["Boil water", "Add pasta"]
    ai_blurb := "Tasty!"
    api_used := "Spoonacular (recipes) + Pollinations (image) + Google AI Studio Gemini (blurb)" }

/-- Evaluation of the pipeline on the sample fixtures. -/
theorem sampleRecipeRun :
    recipe "k" "g" sampleReq sampleSearch (.ok sampleInfo) (.success (some "Tasty!")) =
      .ok sampleResponse := by decide

/-- The sample payload with an upstream ready-time of zero minutes. -/
def sampleInfoZero : RawInfo := { sampleInfo with readyInMinutes := .num 0 }

/-- The response assembled from `sampleInfoZero`: the zero falls back to the
requested `max_time`. -/
def sampleResponseZero : RecipeResponse := { sampleResponse with total_time_minutes := 60 }

/-- Evaluation of the pipeline on the zero-ready-time fixture. -/
theorem sampleZeroRun :
    recipe "k" "g" sampleReq sampleSearch (.ok sampleInfoZero) (.success (some "Tasty!")) =
      .ok sampleResponseZero := by decide

/-! ## Helper lemmas -/

/-- A string whose character list is empty is the empty string. -/
theorem eq_empty_of_data_nil (s : String) (h : s.data = []) : s = "" := by
  cases s with
  | mk d =>
    have hd : d = [] := h
    subst hd
    rfl

/-- Appending to a non-empty string on the left stays non-empty. -/
theorem append_left_ne_empty (s t : String) (h : s ≠ "") : s ++ t ≠ "" := by
  intro hc
  apply h
  apply eq_empty_of_data_nil
  have hd := congrArg String.data hc
  rw [String.data_append s t] at hd
  exact (List.append_eq_nil.mp hd).1

/-- `gemini_blurb_sync` always yields a non-empty string, whatever the key and
however the external call went. -/
theorem gemini_blurb_sync_ne_empty (key : String) (g : GeminiOutcome) :
    gemini_blurb_sync key g ≠ "" := by
  unfold gemini_blurb_sync
  split
  · decide
  · cases g with
    | failure e => exact append_left_ne_empty "Gemini error: " e (by decide)
    | success t =>
      show (if pyStrip (t.getD "") = "" then "Gemini returned an empty response."
            else pyStrip (t.getD "")) ≠ ""
      split
      · decide
      · assumption

/-- Every successful pipeline run assembles exactly this response. -/
theorem recipe_ok_shape (sk gk : String) (req : RecipeRequest) (search : SearchHttp)
    (info : RawInfo) (g : GeminiOutcome) (r : RecipeResponse)
    (h : recipe sk gk req search (.ok info) g = .ok r) :
    r = { title := resolve_title info.title (pyStrip req.description)
          image_url := pollinations_image_url (resolve_title info.title (pyStrip req.description))
          total_time_minutes := resolve_total_time info.readyInMinutes req.max_time
          source_url := info.sourceUrl
          ingredients := extract_ingredients info
          instructions := extract_instructions info
          ai_blurb := gemini_blurb_sync gk g
          api_used := "Spoonacular (recipes) + Pollinations (image) + Google AI Studio Gemini (blurb)" } := by
  unfold recipe at h
  by_cases hk : sk = ""
  · rw [if_pos hk] at h
    exact Except.noConfusion h
  · rw [if_neg hk] at h
    cases hs : spoonacular_search search with
    | error e =>
      rw [hs] at h
      exact Except.noConfusion h
    | ok i =>
      rw [hs] at h
      exact (Except.ok.inj h).symm

/-- The structured branch of `chosen_steps`, when the first analyzed group
holds steps. -/
theorem chosen_steps_structured (info : RawInfo) (h : structured_steps info ≠ []) :
    chosen_steps info =
      ((structured_steps info).map (fun s => pyStrip (s.step.getD ""))).filter (fun t => t != "") := by
  have h' : (structured_steps info).isEmpty = false := by
    cases hs : structured_steps info with
    | nil => exact absurd hs h
    | cons a l => rfl
  simp [chosen_steps, h']

/-- The free-text branch of `chosen_steps`, when no structured steps exist. -/
theorem chosen_steps_free_text (info : RawInfo) (h : structured_steps info = []) :
    chosen_steps info = free_text_branch info := by
  simp [chosen_steps, h]

/-! ## Claims -/

/-- C1: `extract_instructions` always returns a non-empty list, chosen by
priority: when the first analyzed-instructions group holds steps it returns
their stripped texts in order with blank steps skipped; otherwise, when the
free-text `instructions` field is non-empty after stripping, it returns the
non-empty stripped segments of splitting that text on periods; whenever the
chosen branch yields zero steps the result is exactly the fixed placeholder
message. Concretely, free text "Boil water. Add pasta. Drain." yields exactly
["Boil water", "Add pasta", "Drain"], and a structured three-step group with
one blank step yields the two non-blank steps in order. -/
theorem extract_instructions_correct :
    (∀ info, extract_instructions info ≠ []) ∧
    (∀ info, structured_steps info ≠ [] →
      extract_instructions info =
        (if (((structured_steps info).map (fun s => pyStrip (s.step.getD ""))).filter (fun t => t != "")).isEmpty
         then [noStepsMsg]
         else ((structured_steps info).map (fun s => pyStrip (s.step.getD ""))).filter (fun t => t != ""))) ∧
    (∀ info, structured_steps info = [] → pyStrip (info.instructions.getD "") ≠ "" →
      extract_instructions info =
        (if (split_instruction_text (pyStrip (info.instructions.getD ""))).isEmpty
         then [noStepsMsg]
         else split_instruction_text (pyStrip (info.instructions.getD "")))) ∧
    (∀ info, structured_steps info = [] → pyStrip (info.instructions.getD "") = "" →
      extract_instructions info = [noStepsMsg]) ∧
    extract_instructions ⟨none, .null, none, none, some "Boil water. Add pasta. Drain.", none⟩ =
      ["Boil water", "Add pasta", "Drain"] ∧
    extract_instructions
        ⟨none, .null, none, some [⟨some [⟨some "Chop the onions"⟩, ⟨some ""⟩, ⟨some "Serve warm"⟩]⟩], none, none⟩ =
      ["Chop the onions", "Serve warm"] := by
  refine ⟨?_, ?_, ?_, ?_, by decide, by decide⟩
  · intro info
    unfold extract_instructions
    split
    · exact List.cons_ne_nil _ _
    · rename_i h
      intro hc
      exact h (by rw [hc]; rfl)
  · intro info h
    rw [extract_instructions, chosen_steps_structured info h]
  · intro info h hraw
    rw [extract_instructions, chosen_steps_free_text info h]
    have : free_text_branch info = split_instruction_text (pyStrip (info.instructions.getD "")) := by
      simp [free_text_branch, hraw]
    rw [this]
  · intro info h hraw
    rw [extract_instructions, chosen_steps_free_text info h]
    have : free_text_branch info = [] := by
      simp [free_text_branch, hraw]
    rw [this]
    rfl

/-- Witness for C1: the structured-branch equation evaluated on the sample
payload, whose first analyzed group holds three steps with one blank. -/
theorem extract_instructions_correct_witness :
    extract_instructions sampleInfo =
      (if (((structured_steps sampleInfo).map (fun s => pyStrip (s.step.getD ""))).filter (fun t => t != "")).isEmpty
       then [noStepsMsg]
       else ((structured_steps sampleInfo).map (fun s => pyStrip (s.step.getD ""))).filter (fun t => t != "")) :=
  extract_instructions_correct.2.1 sampleInfo (by decide)

/-- C2: `extract_ingredients` always returns a non-empty list; each raw entry
maps in order to an Ingredient whose name is the entry's name field (or
"ingredient" when absent) and whose amount is the stripped original text,
falling back to the name when that strips to empty; an absent or empty raw
list yields exactly the sentinel entry with name "N/A". -/
theorem extract_ingredients_correct :
    (∀ info, extract_ingredients info ≠ []) ∧
    (∀ info l, info.extendedIngredients = some l → l ≠ [] →
      extract_ingredients info = l.map ingredientOf) ∧
    (∀ item, (ingredientOf item).name = item.name.getD "ingredient") ∧
    (∀ item, (ingredientOf item).amount =
      (if pyStrip (item.original.getD "") = "" then item.name.getD "ingredient"
       else pyStrip (item.original.getD ""))) ∧
    (∀ info, info.extendedIngredients.getD [] = [] →
      extract_ingredients info = [⟨"N/A", "No ingredients returned by the API."⟩]) := by
  refine ⟨?_, ?_, ?_, ?_, ?_⟩
  · intro info
    unfold extract_ingredients
    cases hm : (info.extendedIngredients.getD []).map ingredientOf with
    | nil => exact List.cons_ne_nil _ _
    | cons a l => exact List.cons_ne_nil _ _
  · intro info l hl hne
    unfold extract_ingredients
    rw [hl]
    cases l with
    | nil => exact absurd rfl hne
    | cons a t => rfl
  · intro item
    rfl
  · intro item
    show (if pyStrip (item.original.getD "") = "" then item.name.getD "ingredient"
          else pyStrip (item.original.getD "")) = _
    rfl
  · intro info h
    unfold extract_ingredients
    rw [h]
    rfl

/-- Witness for C2: the per-entry mapping evaluated on the sample payload's
two raw ingredient entries. -/
theorem extract_ingredients_correct_witness :
    extract_ingredients sampleInfo =
      ([⟨some "pasta", some " 200 g pasta "⟩, ⟨none, none⟩] : List RawIngredient).map ingredientOf :=
  extract_ingredients_correct.2.1 sampleInfo
    [⟨some "pasta", some " 200 g pasta "⟩, ⟨none, none⟩] rfl (by decide)

/-- C3: the blurb step never fails the request. `gemini_blurb_sync` returns a
non-empty string for every outcome (missing credential, raised exception,
empty generated text), the stripped generated text itself on success, and
whether the pipeline succeeds is independent of the Gemini outcome; every
successful response carries that non-empty string as `ai_blurb`. -/
theorem blurb_never_fails :
    (∀ key g, gemini_blurb_sync key g ≠ "") ∧
    (∀ (key : String) (t : Option String), key ≠ "" → pyStrip (t.getD "") ≠ "" →
      gemini_blurb_sync key (.success t) = pyStrip (t.getD "")) ∧
    (∀ sk gk req search infoR g g',
      (recipe sk gk req search infoR g).isOk = (recipe sk gk req search infoR g').isOk) ∧
    (∀ sk gk req search info g r, recipe sk gk req search (.ok info) g = .ok r →
      r.ai_blurb = gemini_blurb_sync gk g ∧ r.ai_blurb ≠ "") := by
  refine ⟨gemini_blurb_sync_ne_empty, ?_, ?_, ?_⟩
  · intro key t hk ht
    unfold gemini_blurb_sync
    rw [if_neg hk]
    show (if pyStrip (t.getD "") = "" then "Gemini returned an empty response."
          else pyStrip (t.getD "")) = _
    rw [if_neg ht]
  · intro sk gk req search infoR g g'
    by_cases hk : sk = ""
    · simp [recipe, hk]
    · cases hs : spoonacular_search search with
      | error e => simp [recipe, hk, hs]
      | ok i =>
        cases infoR with
        | error m => simp [recipe, hk, hs]
        | ok info =>
          simp only [recipe, hk, hs]
          rfl
  · intro sk gk req search info g r h
    rw [recipe_ok_shape sk gk req search info g r h]
    exact ⟨rfl, gemini_blurb_sync_ne_empty gk g⟩

/-- Witness for C3: the sample run's ai_blurb is the Gemini text and is
non-empty. -/
theorem blurb_never_fails_witness :
    sampleResponse.ai_blurb = gemini_blurb_sync "g" (.success (some "Tasty!")) ∧
      sampleResponse.ai_blurb ≠ "" :=
  blurb_never_fails.2.2.2 "k" "g" sampleReq sampleSearch sampleInfo
    (.success (some "Tasty!")) sampleResponse sampleRecipeRun

/-- The 401 branch of `spoonacular_search`. -/
theorem spoonacular_search_auth_rejected (h : SearchHttp) (h1 : h.status = 401) :
    spoonacular_search h = .error (.httpException 500 "Invalid SPOONACULAR_API_KEY (401).") := by
  simp [spoonacular_search, h1]

/-- The empty-results branch of `spoonacular_search`. -/
theorem spoonacular_search_no_results (h : SearchHttp) (h1 : h.status ≠ 401)
    (h2 : h.status < 400) (h3 : h.results = []) :
    spoonacular_search h = .error (.httpException 404 "No recipes found for that query/time.") := by
  have h4 : ¬ (400 ≤ h.status) := Nat.not_le.mpr h2
  simp [spoonacular_search, h1, h4, h3]

/-- C4: the search step's three failure cases are distinct. A missing
Spoonacular credential fails every request with a 500 error naming the
missing credential regardless of any upstream outcome; a 401 from Spoonacular
fails with a 500 error naming the invalid credential; zero search results
fail with a 404 error; the three detail messages are pairwise distinct. -/
theorem search_error_classification :
    (∀ gk req search infoR g,
      recipe "" gk req search infoR g =
        .error (.httpException 500 "Server missing SPOONACULAR_API_KEY.")) ∧
    (∀ h : SearchHttp, h.status = 401 →
      spoonacular_search h = .error (.httpException 500 "Invalid SPOONACULAR_API_KEY (401).")) ∧
    (∀ h : SearchHttp, h.status ≠ 401 → h.status < 400 → h.results = [] →
      spoonacular_search h = .error (.httpException 404 "No recipes found for that query/time.")) ∧
    (∀ sk gk req search infoR g, sk ≠ "" → search.status = 401 →
      recipe sk gk req search infoR g =
        .error (.httpException 500 "Invalid SPOONACULAR_API_KEY (401).")) ∧
    (∀ sk gk req search infoR g, sk ≠ "" → search.status ≠ 401 → search.status < 400 →
      search.results = [] →
      recipe sk gk req search infoR g =
        .error (.httpException 404 "No recipes found for that query/time.")) ∧
    (("Server missing SPOONACULAR_API_KEY." : String) ≠ "Invalid SPOONACULAR_API_KEY (401)." ∧
      ("Server missing SPOONACULAR_API_KEY." : String) ≠ "No recipes found for that query/time." ∧
      ("Invalid SPOONACULAR_API_KEY (401)." : String) ≠ "No recipes found for that query/time.") := by
  refine ⟨?_, spoonacular_search_auth_rejected, spoonacular_search_no_results, ?_, ?_, by decide⟩
  · intro gk req search infoR g
    simp [recipe]
  · intro sk gk req search infoR g hk h1
    simp [recipe, hk, spoonacular_search_auth_rejected search h1]
  · intro sk gk req search infoR g hk h1 h2 h3
    simp [recipe, hk, spoonacular_search_no_results search h1 h2 h3]

/-- Witness for C4: a 401 search exchange with a configured key fails the
sample request with the invalid-credential message. -/
theorem search_error_classification_witness :
    recipe "k" "g" sampleReq ⟨401, []⟩ (.ok sampleInfo) (.success none) =
      .error (.httpException 500 "Invalid SPOONACULAR_API_KEY (401).") :=
  search_error_classification.2.2.2.1 "k" "g" sampleReq ⟨401, []⟩ (.ok sampleInfo)
    (.success none) (by decide) rfl

/-- An `ingredientOf` amount is empty exactly when the entry's original text
strips to empty and its name field is present and empty. -/
theorem ingredientOf_amount_empty_iff (item : RawIngredient) :
    (ingredientOf item).amount = "" ↔
      (pyStrip (item.original.getD "") = "" ∧ item.name = some "") := by
  rcases item with ⟨n, o⟩
  show (if pyStrip (o.getD "") = "" then n.getD "ingredient" else pyStrip (o.getD "")) = "" ↔ _
  cases n with
  | none =>
    split
    · simp
    · rename_i h
      simp [h]
  | some s =>
    split
    · rename_i h
      simp [h]
    · rename_i h
      simp [h]

/-- C5 counterexample: an upstream ingredient entry carrying an explicitly
empty name and no original text produces an Ingredient whose amount is the
empty string. -/
theorem ingredient_amount_empty_counterexample :
    (recipe "k" "g" sampleReq sampleSearch
        (.ok { title := some "Garlic Pasta", readyInMinutes := .num 25,
               sourceUrl := none, analyzedInstructions := none,
               instructions := some "Boil.",
               extendedIngredients := some [⟨some "", none⟩] })
        (.success (some "Tasty!"))).map RecipeResponse.ingredients =
      .ok [⟨"", ""⟩] := by decide

/-- C5 (amended): an Ingredient's amount is the stripped original text when
that is non-empty and otherwise falls back to the ingredient's name; it is
empty only in the edge case where the raw entry's name field is present but
empty and its original text strips to empty — whenever the name is non-empty
(in particular whenever the name field is absent, where the placeholder
"ingredient" is used) the amount is non-empty. -/
theorem ingredient_amount_fallback :
    (∀ item, (ingredientOf item).amount =
      (if pyStrip (item.original.getD "") = "" then (ingredientOf item).name
       else pyStrip (item.original.getD ""))) ∧
    (∀ item, (ingredientOf item).amount = "" ↔
      (pyStrip (item.original.getD "") = "" ∧ item.name = some "")) ∧
    (∀ info ing, ing ∈ extract_ingredients info → ing.name ≠ "" → ing.amount ≠ "") := by
  refine ⟨?_, ingredientOf_amount_empty_iff, ?_⟩
  · intro item
    rfl
  · intro info ing hmem hname hc
    unfold extract_ingredients at hmem
    cases hm : (info.extendedIngredients.getD []).map ingredientOf with
    | nil =>
      rw [hm] at hmem
      have : ing = (⟨"N/A", "No ingredients returned by the API."⟩ : Ingredient) :=
        List.mem_singleton.mp hmem
      rw [this] at hc
      exact absurd hc (by decide)
    | cons a l =>
      rw [hm] at hmem
      have hmem' : ing ∈ (info.extendedIngredients.getD []).map ingredientOf := by
        rw [hm]
        exact hmem
      obtain ⟨item, _, rfl⟩ := List.mem_map.mp hmem'
      obtain ⟨-, hn⟩ := (ingredientOf_amount_empty_iff item).mp hc
      apply hname
      show item.name.getD "ingredient" = ""
      rw [hn]
      rfl

/-- Witness for C5 (amended): the sample run's placeholder-named ingredient
has a non-empty amount. -/
theorem ingredient_amount_fallback_witness :
    (Ingredient.mk "ingredient" "ingredient") ∈ extract_ingredients sampleInfo ∧
      (Ingredient.mk "ingredient" "ingredient").amount ≠ "" :=
  ⟨by decide, ingredient_amount_fallback.2.2 sampleInfo ⟨"ingredient", "ingredient"⟩
    (by decide) (by decide)⟩

/-- C6 counterexample: an upstream payload whose title field is present but a
single space — by the claim, the response title — makes the response's title
the empty string. -/
theorem title_empty_counterexample :
    (recipe "k" "g" sampleReq sampleSearch
        (.ok { sampleInfo with title := some " " })
        (.success (some "Tasty!"))).map RecipeResponse.title = .ok "" := by decide

/-- C6 (amended): the response's title is the stripped upstream title when the
upstream title field is present and non-empty, and otherwise the stripped
title-cased stripped description; it is non-empty whenever the chosen source
strips to a non-empty string (in particular whenever the upstream title
contains a non-whitespace character), but a whitespace-only upstream title —
or an absent one combined with a whitespace-only description — leaves it
empty. -/
theorem title_resolution :
    (∀ sk gk req search info g r, recipe sk gk req search (.ok info) g = .ok r →
      r.title = resolve_title info.title (pyStrip req.description)) ∧
    (∀ (t : Option String) (q : String), t.getD "" ≠ "" →
      resolve_title t q = pyStrip (t.getD "")) ∧
    (∀ (t : Option String) (q : String), t.getD "" = "" →
      resolve_title t q = pyStrip (pyTitle q)) ∧
    (∀ (t : Option String) (q : String), pyStrip (t.getD "") ≠ "" →
      resolve_title t q ≠ "") := by
  refine ⟨?_, ?_, ?_, ?_⟩
  · intro sk gk req search info g r h
    rw [recipe_ok_shape sk gk req search info g r h]
  · intro t q h
    unfold resolve_title
    rw [if_neg h]
  · intro t q h
    unfold resolve_title
    rw [if_pos h]
  · intro t q h
    have ht : t.getD "" ≠ "" := by
      intro hc
      apply h
      rw [hc]
      rfl
    unfold resolve_title
    rw [if_neg ht]
    exact h

/-- Witness for C6 (amended): the sample run's title is the resolved title of
the sample payload. -/
theorem title_resolution_witness :
    sampleResponse.title = resolve_title sampleInfo.title (pyStrip sampleReq.description) :=
  title_resolution.1 "k" "g" sampleReq sampleSearch sampleInfo
    (.success (some "Tasty!")) sampleResponse sampleRecipeRun

/-- C7: `pollinations_image_url` is the fixed base endpoint followed by the
URL-encoding of the fixed template instantiated with its argument, and every
successful response's image_url is recomputed from the resolved title — not
from the provisional description-based URL. -/
theorem image_url_from_title :
    (∀ t, pollinations_image_url t =
      POLLINATIONS_BASE ++ pyQuote ("high quality food photography of " ++ t ++ ", plated, natural lighting")) ∧
    (∀ sk gk req search info g r, recipe sk gk req search (.ok info) g = .ok r →
      r.image_url = pollinations_image_url r.title ∧
      r.image_url = pollinations_image_url (resolve_title info.title (pyStrip req.description))) := by
  refine ⟨fun t => rfl, ?_⟩
  intro sk gk req search info g r h
  rw [recipe_ok_shape sk gk req search info g r h]
  exact ⟨rfl, rfl⟩

/-- Witness for C7: the sample run's image URL is derived from its resolved
title. -/
theorem image_url_from_title_witness :
    sampleResponse.image_url = pollinations_image_url sampleResponse.title ∧
      sampleResponse.image_url =
        pollinations_image_url (resolve_title sampleInfo.title (pyStrip sampleReq.description)) :=
  image_url_from_title.2 "k" "g" sampleReq sampleSearch sampleInfo
    (.success (some "Tasty!")) sampleResponse sampleRecipeRun

/-- C8 counterexample: the upstream payload provides a ready-in-minutes value
of 0, yet the response's total time is the requested max_time 60 rather than
the provided 0. -/
theorem total_time_upstream_zero_counterexample :
    (recipe "k" "g" sampleReq sampleSearch (.ok sampleInfoZero)
        (.success (some "Tasty!"))).map RecipeResponse.total_time_minutes = .ok 60 ∧
      sampleInfoZero.readyInMinutes = .num 0 ∧ (60 : Int) ≠ 0 := by decide

/-- C8 (amended): the response's total_time_minutes equals the upstream
ready-in-minutes value when the payload provides a truthy one (in particular
any non-zero number), and equals the request's max_time when the payload
omits it or provides a falsy value such as 0. -/
theorem total_time_resolution :
    (∀ v m, v.truthy = true → resolve_total_time v m = v.toIntVal) ∧
    (∀ (n : Int) (m : Int), n ≠ 0 → resolve_total_time (.num n) m = n) ∧
    (∀ v m, v.truthy = false → resolve_total_time v m = m) ∧
    (∀ sk gk req search info g r, recipe sk gk req search (.ok info) g = .ok r →
      r.total_time_minutes = resolve_total_time info.readyInMinutes req.max_time) := by
  refine ⟨?_, ?_, ?_, ?_⟩
  · intro v m h
    unfold resolve_total_time
    rw [h]
    rfl
  · intro n m h
    have ht : (TimeVal.num n).truthy = true := by
      show decide (n ≠ 0) = true
      exact decide_eq_true h
    unfold resolve_total_time
    rw [ht]
    rfl
  · intro v m h
    unfold resolve_total_time
    rw [h]
    rfl
  · intro sk gk req search info g r h
    rw [recipe_ok_shape sk gk req search info g r h]

/-- Witness for C8 (amended): the sample run's total time is the resolved
total time of the sample payload. -/
theorem total_time_resolution_witness :
    sampleResponse.total_time_minutes =
      resolve_total_time sampleInfo.readyInMinutes sampleReq.max_time :=
  total_time_resolution.2.2.2 "k" "g" sampleReq sampleSearch sampleInfo
    (.success (some "Tasty!")) sampleResponse sampleRecipeRun

/-- C10: every falsy ready-in-minutes value — absent/null, the number 0, or
the empty string — resolves to the request's max_time, so a successful
response built from such a payload reports max_time and an upstream time of
zero minutes can never appear. -/
theorem total_time_falsy_fallback :
    (∀ m, resolve_total_time .null m = m) ∧
    (∀ m, resolve_total_time (.num 0) m = m) ∧
    (∀ m, resolve_total_time (.str "") m = m) ∧
    (∀ sk gk req search info g r, recipe sk gk req search (.ok info) g = .ok r →
      (info.readyInMinutes = .null ∨ info.readyInMinutes = .num 0 ∨
        info.readyInMinutes = .str "") →
      r.total_time_minutes = req.max_time) := by
  refine ⟨fun m => rfl, fun m => rfl, fun m => rfl, ?_⟩
  intro sk gk req search info g r h hf
  rw [recipe_ok_shape sk gk req search info g r h]
  show resolve_total_time info.readyInMinutes req.max_time = req.max_time
  rcases hf with hf | hf | hf <;> rw [hf] <;> rfl

/-- Witness for C10: the zero-ready-time sample run's total time equals the
requested max_time. -/
theorem total_time_falsy_fallback_witness :
    sampleResponseZero.total_time_minutes = sampleReq.max_time :=
  total_time_falsy_fallback.2.2.2 "k" "g" sampleReq sampleSearch sampleInfoZero
    (.success (some "Tasty!")) sampleResponseZero sampleZeroRun (Or.inr (Or.inl rfl))

/-- C9: the Flow B normalizer strips one fenced code-block wrapper — taking
the json-labeled fence in preference to the unlabeled one when both patterns
could match, and leaving unfenced text unchanged — and surfaces text that
fails JSON decoding as a distinguishable ParseError-style failure of the
current request, never as a silent empty recipe. -/
theorem parse_generated_recipe_correct :
    (∀ (d : String → Option GenRecipe) (t : String), d (strip_code_fence t) = none →
      parse_generated_recipe d t =
        .error (.httpException 500 "Gemini did not return valid recipe JSON.")) ∧
    (∀ (d : String → Option GenRecipe) (t : String) (r : GenRecipe),
      d (strip_code_fence t) = some r → parse_generated_recipe d t = .ok r) ∧
    strip_code_fence "```json\n\x7b\"title\": \"Soup\"\x7d\n```" = "\x7b\"title\": \"Soup\"\x7d" ∧
    strip_code_fence "```\n\x7b\"title\": \"Soup\"\x7d\n```" = "\x7b\"title\": \"Soup\"\x7d" ∧
    strip_code_fence "\x7b\"title\": \"Soup\"\x7d" = "\x7b\"title\": \"Soup\"\x7d" := by
  refine ⟨?_, ?_, by decide, by decide, by decide⟩
  · intro d t h
    unfold parse_generated_recipe
    rw [h]
  · intro d t r h
    unfold parse_generated_recipe
    rw [h]

/-- Witness for C9: a decoder rejecting everything makes
`parse_generated_recipe` fail with the ParseError, not succeed emptily. -/
theorem parse_generated_recipe_correct_witness :
    parse_generated_recipe (fun _ => none) "not json at all" =
      .error (.httpException 500 "Gemini did not return valid recipe JSON.") :=
  parse_generated_recipe_correct.1 (fun _ => none) "not json at all" rfl
